/-
Verification of the pay402-axios response interceptor
(`src/index.ts`, `withPay402Interceptor`) against its specification.

The interceptor is embedded shallowly:
* the decoded 402 body (`Pay402Response`, `Pay402Accept`) and the derived
  `PaymentOption` mirror `src/types.ts`;
* the anonymous rejection handler installed by
  `axiosInstance.interceptors.response.use` is embedded as the pure function
  `errorHandler`, parameterised by two oracles — the caller-supplied
  `signTransaction` callback and the client's `request` method used for the
  retry — and instrumented with a trace of the calls it makes;
* the regular expression `/Send\s+([\d.]+)\s+PAY/` used on the accept entry's
  description is embedded as the scanner `findSendPay` (leftmost match,
  maximal runs: since the character classes `\s` and `[\d.]` are disjoint and
  neither contains `P`, the greedy quantifiers never backtrack, so each `+`
  consumes exactly the maximal run);
* JavaScript truthiness of the strings involved (`description`,
  `maxAmountRequired`, `asset`, `extra?.name`, `amountMatch[1]`) is the
  emptiness test, and `extra?.name` is an `Option String`.
-/
import Mathlib

namespace Pay402

/-- One offer within a 402 challenge, mirroring `Pay402Accept` of
`src/types.ts`.  `extraName` embeds the JavaScript access `extra?.name`
(absent `extra` or absent `name` both give `none`); `outputSchema` is opaque
to the interceptor and omitted. -/
structure Pay402Accept where
  scheme : String
  network : String
  maxAmountRequired : String
  resource : String
  description : String
  mimeType : String
  payTo : String
  maxTimeoutSeconds : Nat
  asset : String
  extraName : Option String
deriving DecidableEq

/-- The decoded 402 response body, mirroring `Pay402Response` of
`src/types.ts`. -/
structure Pay402Response where
  x402Version : Int
  error : String
  accepts : List Pay402Accept
deriving DecidableEq

/-- A normalized payment choice, mirroring `PaymentOption` of
`src/types.ts`. -/
structure PaymentOption where
  amount : String
  currency : String
  payTo : String
deriving DecidableEq

/-- The failed request's configuration (axios `config`): headers are an
association list in insertion order, `none` when the request had no header
object. -/
structure RequestConfig where
  url : String
  method : String
  body : Option String
  headers : Option (List (String × String))
deriving DecidableEq

/-- The 402 response attached to the axios error: its HTTP status and its
decoded body (`none` for an absent/null body). -/
structure AxiosResponse where
  status : Nat
  data : Option Pay402Response
deriving DecidableEq

/-- The axios failure object handed to the rejection handler. -/
structure AxiosError where
  message : String
  config : Option RequestConfig
  response : Option AxiosResponse
deriving DecidableEq

/-! ### The description scanner: `/Send\s+([\d.]+)\s+PAY/` -/

/-- Character class `\s` of a JavaScript regular expression: ASCII
whitespace, no-break space, the Unicode space separators, line and paragraph
separators, and the byte-order mark. -/
def jsSpace (c : Char) : Bool :=
  c = ' ' || c = '\t' || c = '\n' || c = '\x0b' || c = '\x0c' || c = '\r' ||
  c.toNat = 0xa0 || c.toNat = 0x1680 ||
  (0x2000 ≤ c.toNat && c.toNat ≤ 0x200a) ||
  c.toNat = 0x2028 || c.toNat = 0x2029 || c.toNat = 0x202f ||
  c.toNat = 0x205f || c.toNat = 0x3000 || c.toNat = 0xfeff

/-- Character class `[\d.]`: a decimal digit or a (literal) dot. -/
def isDigitDot (c : Char) : Bool :=
  c.isDigit || c = '.'

/-- Match `\s+([\d.]+)\s+PAY` at the start of `rest` (the text following a
literal `Send`), returning the captured group.  Each `+` takes the maximal
run of its class: the classes are disjoint and exclude `P`, so the greedy
regex quantifiers cannot backtrack. -/
def afterSend (rest : List Char) : Option (List Char) :=
  let w1 := rest.takeWhile jsSpace
  let r1 := rest.dropWhile jsSpace
  if w1.isEmpty then none else
  let d := r1.takeWhile isDigitDot
  let r2 := r1.dropWhile isDigitDot
  if d.isEmpty then none else
  let w2 := r2.takeWhile jsSpace
  let r3 := r2.dropWhile jsSpace
  if w2.isEmpty then none else
  match r3 with
  | 'P' :: 'A' :: 'Y' :: _ => some d
  | _ => none

/-- Match the whole pattern `Send\s+([\d.]+)\s+PAY` anchored at the start of
`l`. -/
def matchSendPayAt : List Char → Option (List Char)
  | 'S' :: 'e' :: 'n' :: 'd' :: rest => afterSend rest
  | _ => none

/-- Leftmost match of `Send\s+([\d.]+)\s+PAY` anywhere in `l`, returning the
captured group, as `String.prototype.match` does for the unanchored,
non-global pattern. -/
def findSendPay : List Char → Option (List Char)
  | [] => none
  | c :: rest =>
    match matchSendPayAt (c :: rest) with
    | some d => some d
    | none => findSendPay rest

/-- `description.match(/Send\s+([\d.]+)\s+PAY/)`, reduced to its captured
group `amountMatch[1]` (which is non-empty whenever the match succeeds, so
the truthiness test `amountMatch && amountMatch[1]` is success of the
match). -/
def matchSendPay (s : String) : Option String :=
  (findSendPay s.data).map (fun l => String.mk l)

/-- The amount grammar stated by the specification (not by the code): digits
with at most one decimal point.  Kept separate from the scanner so the two
can be compared. -/
def wellFormedAmount (a : String) : Bool :=
  a.data.all (fun c => c.isDigit || c = '.') && decide (a.data.count '.' ≤ 1)

/-! ### Matching and extraction -/

/-- `String.prototype.includes`: `needle` occurs as a contiguous substring
of the second argument. -/
def listIncludes (needle : List Char) : List Char → Bool
  | [] => needle.isEmpty
  | c :: t => needle.isPrefixOf (c :: t) || listIncludes needle t

/-- The fixed marker substring (`targetDescription` in `src/index.ts`). -/
def targetDescription : String :=
  "PAY402 is detected on this server for gas-free transfers"

/-- The predicate of the `accepts.find` call:
`opt.description && opt.description.includes(targetDescription)`. -/
def descrMatches (a : Pay402Accept) : Bool :=
  (a.description != "") && listIncludes targetDescription.data a.description.data

/-- The matched accept entry: the guard
`data && data.accepts && data.accepts.length > 0` followed by
`data.accepts.find(...)`, which returns the first matching entry. -/
def findAccept (data : Option Pay402Response) : Option Pay402Accept :=
  match data with
  | some d => if d.accepts.length > 0 then d.accepts.find? descrMatches else none
  | none => none

/-- The currency label of the second option:
`acceptOption.extra?.name || acceptOption.asset` (a present but empty name
is falsy and falls back to the asset identifier). -/
def currencyOf (a : Pay402Accept) : String :=
  match a.extraName with
  | some n => if n = "" then a.asset else n
  | none => a.asset

/-- Extraction rule 1: the `Send <amount> PAY` option pushed when the regex
matches the description. -/
def rule1Options (a : Pay402Accept) : List PaymentOption :=
  match matchSendPay a.description with
  | some amt => [{ amount := amt, currency := "PAY", payTo := a.payTo }]
  | none => []

/-- Extraction rule 2: the default-asset option pushed when
`acceptOption.maxAmountRequired && acceptOption.asset` is truthy. -/
def rule2Options (a : Pay402Accept) : List PaymentOption :=
  if a.maxAmountRequired ≠ "" ∧ a.asset ≠ "" then
    [{ amount := a.maxAmountRequired, currency := currencyOf a, payTo := a.payTo }]
  else []

/-- The `pricing` array built for the matched accept entry: rule 1 then
rule 2, in that order. -/
def extractPricing (a : Pay402Accept) : List PaymentOption :=
  rule1Options a ++ rule2Options a

/-! ### Headers and the retried configuration -/

/-- JavaScript object property assignment on the header set: an existing
`x-pay402` binding is overwritten in place, otherwise the binding is
appended; every other binding is untouched. -/
def setHeader (hs : List (String × String)) (k v : String) : List (String × String) :=
  if hs.any (fun p => p.1 = k) then
    hs.map (fun p => if p.1 = k then (k, v) else p)
  else hs ++ [(k, v)]

/-- The mutation performed before the retry:
`if (!error.config.headers) error.config.headers = {};
error.config.headers['x-pay402'] = transactionId`. -/
def attachToken (cfg : RequestConfig) (tok : String) : RequestConfig :=
  { cfg with headers := some (setHeader (cfg.headers.getD []) "x-pay402" tok) }

/-- Header lookup in an association list, first binding wins (a JavaScript
object read `headers[k]`). -/
def lookupHeader (k : String) : List (String × String) → Option String
  | [] => none
  | (k0, v0) :: t => if k0 = k then some v0 else lookupHeader k t

/-- Look a header up in a configuration (an absent header object has no
bindings). -/
def headerLookup (cfg : RequestConfig) (k : String) : Option String :=
  lookupHeader k (cfg.headers.getD [])

/-! ### The rejection handler -/

/-- How the handler settles the intercepted failure: with the outcome of the
single retried request, by rejecting with an axios error object, or by
rejecting with the payer callback's failure. -/
inductive HandlerResult (ρ σ ε : Type) where
  | fromRetry : Except ε ρ → HandlerResult ρ σ ε
  | rejectError : AxiosError → HandlerResult ρ σ ε
  | rejectSign : σ → HandlerResult ρ σ ε

/-- One run of the rejection handler: its settled result together with the
trace of external calls it made (payer-callback invocations with their
`(pricing, resource)` arguments, extraction-rule applications, and retried
request configurations). -/
structure HandlerRun (ρ σ ε : Type) where
  result : HandlerResult ρ σ ε
  signCalls : List (List PaymentOption × String)
  extractCalls : List Pay402Accept
  retryCalls : List RequestConfig

/-- The rejection handler installed by
`axiosInstance.interceptors.response.use` in `withPay402Interceptor`
(`src/index.ts`).  `signTransaction` is the caller-supplied payer callback
(resolving with a proof-of-payment token or rejecting with a `σ`);
`request` is `axiosInstance.request`, the retry through the same client
instance (resolving with a `ρ` or rejecting with an `ε`).  On the retry
path the handler returns `request`'s outcome verbatim: in the source the
promise returned by `axiosInstance.request(error.config)` is returned from
inside the `try` block without being awaited, so its rejection is not
caught by the surrounding `catch`. -/
def errorHandler {ρ σ ε : Type}
    (signTransaction : List PaymentOption → String → Except σ String)
    (request : RequestConfig → Except ε ρ)
    (error : AxiosError) : HandlerRun ρ σ ε :=
  match error.response with
  | some response =>
    if response.status = 402 then
      match findAccept response.data with
      | some acceptOption =>
        let pricing := extractPricing acceptOption
        if pricing.length > 0 then
          match signTransaction pricing acceptOption.resource with
          | Except.ok transactionId =>
            match error.config with
            | some config =>
              let retried := attachToken config transactionId
              { result := HandlerResult.fromRetry (request retried),
                signCalls := [(pricing, acceptOption.resource)],
                extractCalls := [acceptOption],
                retryCalls := [retried] }
            | none =>
              { result := HandlerResult.rejectError error,
                signCalls := [(pricing, acceptOption.resource)],
                extractCalls := [acceptOption],
                retryCalls := [] }
          | Except.error signError =>
            { result := HandlerResult.rejectSign signError,
              signCalls := [(pricing, acceptOption.resource)],
              extractCalls := [acceptOption],
              retryCalls := [] }
        else
          { result := HandlerResult.rejectError error, signCalls := [],
            extractCalls := [acceptOption], retryCalls := [] }
      | none =>
        { result := HandlerResult.rejectError error, signCalls := [],
          extractCalls := [], retryCalls := [] }
    else
      { result := HandlerResult.rejectError error, signCalls := [],
        extractCalls := [], retryCalls := [] }
  | none =>
    { result := HandlerResult.rejectError error, signCalls := [],
      extractCalls := [], retryCalls := [] }

/-! ### The client instance and interceptor registration -/

/-- The two response interceptors involved in setup. -/
inductive InterceptorTag where
  | x402Fallback
  | pay402Custom
deriving DecidableEq

/-- The HTTP client instance: its identity and its response interceptors in
order of registration. -/
structure AxiosInstance where
  clientId : Nat
  responseInterceptors : List InterceptorTag
deriving DecidableEq

/-- Modelled from the spec: the fallback generic-payment-protocol
collaborator (`withPaymentInterceptor` of the external `x402-axios`
package, not part of this repository) installs its own response interceptor
on the client instance it is given. -/
def withPaymentInterceptor (a : AxiosInstance) : AxiosInstance :=
  { a with responseInterceptors :=
      a.responseInterceptors ++ [InterceptorTag.x402Fallback] }

/-- `axiosInstance.interceptors.response.use(...)`: registration appends the
handler to the client's interceptor list. -/
def responseUse (a : AxiosInstance) (t : InterceptorTag) : AxiosInstance :=
  { a with responseInterceptors := a.responseInterceptors ++ [t] }

/-- The setup operation `withPay402Interceptor` (`src/index.ts`): first the
fallback collaborator is applied to the instance, then the component's own
rejection handler is registered, and the (in-place mutated) instance itself
is returned. -/
def withPay402Interceptor (a : AxiosInstance) : AxiosInstance :=
  responseUse (withPaymentInterceptor a) InterceptorTag.pay402Custom

/-- Modelled from the spec: the HTTP client collaborator executes
failure-path response interceptors in most-recently-registered-runs-first
order. -/
def executionOrder (a : AxiosInstance) : List InterceptorTag :=
  a.responseInterceptors.reverse

/-! ### Concrete fixtures (scenarios A and B of `test/verify.ts`) -/

/-- Scenario A: the matching accept entry served by the mock adapter for
`/protected-resource-custom`. -/
def acceptA : Pay402Accept :=
  { scheme := "exact"
    network := "base"
    maxAmountRequired := "14000"
    resource := "http://localhost:3000/api/pay-for-order"
    description := "PAY402 is detected on this server for gas-free transfers. Send 0.066 PAY or the USDC amount via 100Pay Internal transfer."
    mimeType := ""
    payTo := "0x37ffc90BDb5B0c3aCF8beCCCe4AA7e7d74ab38Ba"
    maxTimeoutSeconds := 60
    asset := "0x833589fCD6eDb6E08f4c7C32D4f71b54bdA02913"
    extraName := some "USD Coin" }

/-- Scenario A: the decoded 402 body. -/
def challengeA : Pay402Response :=
  { x402Version := 1
    error := "X-PAYMENT header is required"
    accepts := [acceptA] }

/-- Scenario A: the 402 response. -/
def responseA : AxiosResponse :=
  { status := 402, data := some challengeA }

/-- Scenario A: the failed request's configuration. -/
def configA : RequestConfig :=
  { url := "/protected-resource-custom"
    method := "get"
    body := none
    headers := some [("Accept", "application/json")] }

/-- Scenario A: the axios failure object. -/
def errorA : AxiosError :=
  { message := "Request failed with status code 402"
    config := some configA
    response := some responseA }

/-- Scenario B: the non-matching accept entry served for
`/protected-resource-fallback`. -/
def acceptB : Pay402Accept :=
  { scheme := "exact"
    network := "base"
    maxAmountRequired := "100"
    resource := "http://localhost:3000/api/other"
    description := "Standard x402 payment required."
    mimeType := ""
    payTo := "0x123..."
    maxTimeoutSeconds := 60
    asset := "0x..."
    extraName := none }

/-- Scenario B: the decoded 402 body. -/
def challengeB : Pay402Response :=
  { x402Version := 1
    error := "X-PAYMENT header is required"
    accepts := [acceptB] }

/-- Scenario B: the 402 response. -/
def responseB : AxiosResponse :=
  { status := 402, data := some challengeB }

/-- Scenario B: the axios failure object. -/
def errorB : AxiosError :=
  { message := "Request failed with status code 402"
    config := some { url := "/protected-resource-fallback", method := "get",
                     body := none, headers := some [] }
    response := some responseB }

/-- A non-402 failure. -/
def errorC : AxiosError :=
  { message := "Request failed with status code 404"
    config := none
    response := some { status := 404, data := none } }

/-- Scenario A's 402 arriving on an error object without a request
configuration. -/
def errorD : AxiosError :=
  { message := "Request failed with status code 402"
    config := none
    response := some responseA }

/-- A payer callback that resolves with the test's token. -/
def signOk : List PaymentOption → String → Except String String :=
  fun _ _ => Except.ok "valid-tx-id"

/-- A payer callback that rejects. -/
def signFail : List PaymentOption → String → Except String String :=
  fun _ _ => Except.error "user declined"

/-- A retry oracle that resolves. -/
def retryOk : RequestConfig → Except String Nat :=
  fun _ => Except.ok 200

/-- The accept entries carried by a 402 response (an absent body carries
none). -/
def acceptsOf (response : AxiosResponse) : List Pay402Accept :=
  match response.data with
  | some d => d.accepts
  | none => []

/-! ### Helper lemmas -/

@[simp] theorem lookupHeader_nil (q : String) : lookupHeader q [] = none := rfl

@[simp] theorem lookupHeader_cons (q k0 v0 : String) (t : List (String × String)) :
    lookupHeader q ((k0, v0) :: t) =
      if k0 = q then some v0 else lookupHeader q t := rfl

theorem lookupHeader_map_set (k v q : String) (hs : List (String × String)) :
    lookupHeader q (hs.map (fun p => if p.1 = k then (k, v) else p)) =
      if q = k then (if hs.any (fun p => p.1 = k) then some v else none)
      else lookupHeader q hs := by
  induction hs with
  | nil => by_cases hq : q = k <;> simp [hq]
  | cons p t ih =>
    rcases p with ⟨k0, v0⟩
    simp only [List.map_cons, List.any_cons]
    by_cases hk : k0 = k
    · subst hk
      rw [if_pos rfl]
      by_cases hq : q = k0
      · subst hq
        simp [ih]
      · have hne : k0 ≠ q := fun h => hq h.symm
        simp [lookupHeader_cons, hne, hq, ih]
    · rw [if_neg hk]
      by_cases hq : q = k
      · subst hq
        simp only [decide_eq_false hk, Bool.false_or]
        simp [lookupHeader_cons, hk, ih]
      · by_cases hk0 : k0 = q
        · simp [lookupHeader_cons, hk0, hq]
        · simp [lookupHeader_cons, hk0, hq, ih]

theorem lookupHeader_append_single (k v q : String) :
    ∀ hs : List (String × String), hs.any (fun p => p.1 = k) = false →
      lookupHeader q (hs ++ [(k, v)]) =
        if q = k then some v else lookupHeader q hs := by
  intro hs
  induction hs with
  | nil =>
    intro _
    by_cases hq : q = k
    · subst hq; simp
    · have hne : k ≠ q := fun h => hq h.symm
      simp [hne, hq]
  | cons p t ih =>
    intro hany
    rcases p with ⟨k0, v0⟩
    simp only [List.any_cons, Bool.or_eq_false_iff, decide_eq_false_iff_not] at hany
    simp only [List.cons_append, lookupHeader_cons]
    by_cases hk0 : k0 = q
    · by_cases hq : q = k
      · exact absurd (hk0.trans hq) hany.1
      · simp [hk0, hq]
    · rw [if_neg hk0, ih (by simp [hany.2])]
      by_cases hq : q = k <;> simp [hq, hk0]

theorem lookupHeader_setHeader_self (hs : List (String × String)) (k v : String) :
    lookupHeader k (setHeader hs k v) = some v := by
  unfold setHeader
  split
  case isTrue hany => simp [lookupHeader_map_set, hany]
  case isFalse hany =>
    rw [lookupHeader_append_single k v k hs
      (by simp only [Bool.not_eq_true] at hany; exact hany)]
    simp

theorem lookupHeader_setHeader_other (hs : List (String × String)) (k v q : String)
    (hne : q ≠ k) : lookupHeader q (setHeader hs k v) = lookupHeader q hs := by
  unfold setHeader
  split
  case isTrue hany => simp [lookupHeader_map_set, hne]
  case isFalse hany =>
    rw [lookupHeader_append_single k v q hs
      (by simp only [Bool.not_eq_true] at hany; exact hany)]
    simp [hne]

theorem headerLookup_attachToken_self (cfg : RequestConfig) (tok : String) :
    headerLookup (attachToken cfg tok) "x-pay402" = some tok := by
  unfold headerLookup attachToken
  simp [lookupHeader_setHeader_self]

theorem headerLookup_attachToken_other (cfg : RequestConfig) (tok k : String)
    (hne : k ≠ "x-pay402") :
    headerLookup (attachToken cfg tok) k = lookupHeader k (cfg.headers.getD []) := by
  unfold headerLookup attachToken
  simp [lookupHeader_setHeader_other _ _ _ _ hne]

theorem takeWhile_all_self (p : Char → Bool) (l : List Char) :
    (l.takeWhile p).all p = true := by
  rw [List.all_eq_true]
  intro x hx
  exact List.mem_takeWhile_imp hx

theorem afterSend_capture (rest d : List Char) (h : afterSend rest = some d) :
    d ≠ [] ∧ d.all isDigitDot = true := by
  simp only [afterSend] at h
  by_cases h1 : (rest.takeWhile jsSpace).isEmpty = true
  · rw [if_pos h1] at h; exact Option.noConfusion h
  · rw [if_neg h1] at h
    by_cases h2 : ((rest.dropWhile jsSpace).takeWhile isDigitDot).isEmpty = true
    · rw [if_pos h2] at h; exact Option.noConfusion h
    · rw [if_neg h2] at h
      by_cases h3 :
          (((rest.dropWhile jsSpace).dropWhile isDigitDot).takeWhile jsSpace).isEmpty = true
      · rw [if_pos h3] at h; exact Option.noConfusion h
      · rw [if_neg h3] at h
        split at h
        · cases h
          refine ⟨?_, takeWhile_all_self _ _⟩
          intro hnil
          exact h2 (by rw [hnil]; rfl)
        · exact Option.noConfusion h

theorem matchSendPayAt_capture (l d : List Char) (h : matchSendPayAt l = some d) :
    d ≠ [] ∧ d.all isDigitDot = true := by
  unfold matchSendPayAt at h
  split at h
  · exact afterSend_capture _ _ h
  · exact Option.noConfusion h

theorem findSendPay_capture : ∀ l d, findSendPay l = some d →
    d ≠ [] ∧ d.all isDigitDot = true := by
  intro l
  induction l with
  | nil => intro d h; exact Option.noConfusion h
  | cons c rest ih =>
    intro d h
    unfold findSendPay at h
    cases hm : matchSendPayAt (c :: rest) with
    | some d0 =>
      simp only [hm] at h
      cases h
      exact matchSendPayAt_capture _ _ hm
    | none =>
      simp only [hm] at h
      exact ih d h

theorem matchSendPay_capture (s a : String) (h : matchSendPay s = some a) :
    a ≠ "" ∧ a.data.all isDigitDot = true := by
  unfold matchSendPay at h
  cases hf : findSendPay s.data with
  | none => rw [hf] at h; exact Option.noConfusion h
  | some l =>
    simp only [hf, Option.map_some'] at h
    cases h
    have hcap := findSendPay_capture s.data l hf
    refine ⟨?_, hcap.2⟩
    intro he
    exact hcap.1 (by simpa using congrArg String.data he)

theorem length_pos_of_find?_eq_some {α : Type} {p : α → Bool} {l : List α} {a : α}
    (h : l.find? p = some a) : 0 < l.length := by
  cases l with
  | nil => exact Option.noConfusion h
  | cons x t => simp

theorem findAccept_eq_none (response : AxiosResponse)
    (h : ∀ a ∈ acceptsOf response, descrMatches a = false) :
    findAccept response.data = none := by
  cases hd : response.data with
  | none => simp [findAccept]
  | some d =>
    have h2 : ∀ a ∈ d.accepts, ¬ (descrMatches a = true) := by
      intro a ha
      have := h a (by simp [acceptsOf, hd, ha])
      simp [this]
    by_cases hl : d.accepts.length > 0
    · simp [findAccept, hl, List.find?_eq_none.mpr h2]
    · simp [findAccept, hl]

/-! ### Case lemmas for the rejection handler -/

theorem errorHandler_matched_ok {ρ σ ε : Type}
    (s : List PaymentOption → String → Except σ String)
    (r : RequestConfig → Except ε ρ)
    (error : AxiosError) (response : AxiosResponse) (e : Pay402Accept)
    (config : RequestConfig) (T : String)
    (hresp : error.response = some response)
    (hstatus : response.status = 402)
    (hfa : findAccept response.data = some e)
    (hne : extractPricing e ≠ [])
    (hsign : s (extractPricing e) e.resource = Except.ok T)
    (hconfig : error.config = some config) :
    errorHandler s r error =
      { result := HandlerResult.fromRetry (r (attachToken config T)),
        signCalls := [(extractPricing e, e.resource)],
        extractCalls := [e],
        retryCalls := [attachToken config T] } := by
  simp [errorHandler, hresp, hstatus, hfa, hsign, hconfig, List.length_pos, hne]

theorem errorHandler_matched_signFail {ρ σ ε : Type}
    (s : List PaymentOption → String → Except σ String)
    (r : RequestConfig → Except ε ρ)
    (error : AxiosError) (response : AxiosResponse) (e : Pay402Accept) (E : σ)
    (hresp : error.response = some response)
    (hstatus : response.status = 402)
    (hfa : findAccept response.data = some e)
    (hne : extractPricing e ≠ [])
    (hsign : s (extractPricing e) e.resource = Except.error E) :
    errorHandler s r error =
      { result := HandlerResult.rejectSign E,
        signCalls := [(extractPricing e, e.resource)],
        extractCalls := [e],
        retryCalls := [] } := by
  simp [errorHandler, hresp, hstatus, hfa, hsign, List.length_pos, hne]

theorem errorHandler_matched_noConfig {ρ σ ε : Type}
    (s : List PaymentOption → String → Except σ String)
    (r : RequestConfig → Except ε ρ)
    (error : AxiosError) (response : AxiosResponse) (e : Pay402Accept) (T : String)
    (hresp : error.response = some response)
    (hstatus : response.status = 402)
    (hfa : findAccept response.data = some e)
    (hne : extractPricing e ≠ [])
    (hsign : s (extractPricing e) e.resource = Except.ok T)
    (hconfig : error.config = none) :
    errorHandler s r error =
      { result := HandlerResult.rejectError error,
        signCalls := [(extractPricing e, e.resource)],
        extractCalls := [e],
        retryCalls := [] } := by
  simp [errorHandler, hresp, hstatus, hfa, hsign, hconfig, List.length_pos, hne]

theorem errorHandler_matched_empty {ρ σ ε : Type}
    (s : List PaymentOption → String → Except σ String)
    (r : RequestConfig → Except ε ρ)
    (error : AxiosError) (response : AxiosResponse) (e : Pay402Accept)
    (hresp : error.response = some response)
    (hstatus : response.status = 402)
    (hfa : findAccept response.data = some e)
    (hempty : extractPricing e = []) :
    errorHandler s r error =
      { result := HandlerResult.rejectError error,
        signCalls := [],
        extractCalls := [e],
        retryCalls := [] } := by
  simp [errorHandler, hresp, hstatus, hfa, hempty]

theorem errorHandler_unmatched {ρ σ ε : Type}
    (s : List PaymentOption → String → Except σ String)
    (r : RequestConfig → Except ε ρ)
    (error : AxiosError) (response : AxiosResponse)
    (hresp : error.response = some response)
    (hstatus : response.status = 402)
    (hfa : findAccept response.data = none) :
    errorHandler s r error =
      { result := HandlerResult.rejectError error,
        signCalls := [],
        extractCalls := [],
        retryCalls := [] } := by
  simp [errorHandler, hresp, hstatus, hfa]

theorem errorHandler_non402 {ρ σ ε : Type}
    (s : List PaymentOption → String → Except σ String)
    (r : RequestConfig → Except ε ρ)
    (error : AxiosError) (response : AxiosResponse)
    (hresp : error.response = some response)
    (hstatus : response.status ≠ 402) :
    errorHandler s r error =
      { result := HandlerResult.rejectError error,
        signCalls := [],
        extractCalls := [],
        retryCalls := [] } := by
  simp [errorHandler, hresp, hstatus]

theorem errorHandler_noResponse {ρ σ ε : Type}
    (s : List PaymentOption → String → Except σ String)
    (r : RequestConfig → Except ε ρ)
    (error : AxiosError)
    (hresp : error.response = none) :
    errorHandler s r error =
      { result := HandlerResult.rejectError error,
        signCalls := [],
        extractCalls := [],
        retryCalls := [] } := by
  simp [errorHandler, hresp]

/-! ### The claims -/

/-- Claim C1: for every 402 error whose challenge contains an accept entry
with the marker substring, the derived options come from the first such
entry only (the `find` of the accept list); when that entry's description
matches the `Send <amount> PAY` pattern and its `maxAmountRequired` and
`asset` are non-empty, the derived list is exactly the PAY option followed
by the default-asset option, both with the entry's `payTo` (the second
currency being `extra.name` when present and non-empty, else the raw
asset), and the payer callback receives exactly this list together with the
entry's `resource`. -/
theorem C1_first_match_two_options {ρ σ ε : Type}
    (s : List PaymentOption → String → Except σ String)
    (r : RequestConfig → Except ε ρ)
    (error : AxiosError) (response : AxiosResponse) (d : Pay402Response)
    (e : Pay402Accept) (amt : String)
    (hresp : error.response = some response)
    (hstatus : response.status = 402)
    (hdata : response.data = some d)
    (hfind : d.accepts.find? descrMatches = some e)
    (hamt : matchSendPay e.description = some amt)
    (hmax : e.maxAmountRequired ≠ "")
    (hasset : e.asset ≠ "") :
    extractPricing e =
      [{ amount := amt, currency := "PAY", payTo := e.payTo },
       { amount := e.maxAmountRequired, currency := currencyOf e,
         payTo := e.payTo }] ∧
    (errorHandler s r error).signCalls = [(extractPricing e, e.resource)] := by
  have hpricing : extractPricing e =
      [{ amount := amt, currency := "PAY", payTo := e.payTo },
       { amount := e.maxAmountRequired, currency := currencyOf e,
         payTo := e.payTo }] := by
    simp only [extractPricing, rule1Options, rule2Options, hamt]
    rw [if_pos (And.intro hmax hasset)]
    rfl
  have hfa : findAccept response.data = some e := by
    simp only [findAccept, hdata]
    rw [if_pos (length_pos_of_find?_eq_some hfind)]
    exact hfind
  have hne : extractPricing e ≠ [] := by rw [hpricing]; simp
  refine ⟨hpricing, ?_⟩
  cases hsig : s (extractPricing e) e.resource with
  | ok T =>
    cases hcfg : error.config with
    | some config =>
      have h := errorHandler_matched_ok s r error response e config T
        hresp hstatus hfa hne hsig hcfg
      rw [h]
    | none =>
      have h := errorHandler_matched_noConfig s r error response e T
        hresp hstatus hfa hne hsig hcfg
      rw [h]
  | error E =>
    have h := errorHandler_matched_signFail s r error response e E
      hresp hstatus hfa hne hsig
    rw [h]

/-- Witness for C1: scenario A of `test/verify.ts`. -/
theorem C1_scenarioA_witness :
    extractPricing acceptA =
      [{ amount := "0.066", currency := "PAY",
         payTo := "0x37ffc90BDb5B0c3aCF8beCCCe4AA7e7d74ab38Ba" },
       { amount := "14000", currency := "USD Coin",
         payTo := "0x37ffc90BDb5B0c3aCF8beCCCe4AA7e7d74ab38Ba" }] ∧
    (errorHandler signOk retryOk errorA).signCalls =
      [(extractPricing acceptA, acceptA.resource)] :=
  C1_first_match_two_options signOk retryOk errorA responseA challengeA
    acceptA "0.066" rfl rfl rfl rfl rfl (by decide) (by decide)

/-- Claim C2: for every matched 402 with a non-empty option list, when the
payer callback resolves with token `T` the original configuration is
reissued once with the `x-pay402` header set to `T`, every originally-set
other header is preserved, and the interceptor's result is exactly the
retry's outcome. -/
theorem C2_retry_carries_token {ρ σ ε : Type}
    (s : List PaymentOption → String → Except σ String)
    (r : RequestConfig → Except ε ρ)
    (error : AxiosError) (response : AxiosResponse) (e : Pay402Accept)
    (config : RequestConfig) (T : String)
    (hresp : error.response = some response)
    (hstatus : response.status = 402)
    (hfa : findAccept response.data = some e)
    (hne : extractPricing e ≠ [])
    (hsign : s (extractPricing e) e.resource = Except.ok T)
    (hconfig : error.config = some config) :
    (errorHandler s r error).result =
      HandlerResult.fromRetry (r (attachToken config T)) ∧
    (errorHandler s r error).retryCalls = [attachToken config T] ∧
    headerLookup (attachToken config T) "x-pay402" = some T ∧
    ∀ k v, k ≠ "x-pay402" → headerLookup config k = some v →
      headerLookup (attachToken config T) k = some v := by
  have h := errorHandler_matched_ok s r error response e config T
    hresp hstatus hfa hne hsign hconfig
  refine ⟨by rw [h], by rw [h], headerLookup_attachToken_self _ _, ?_⟩
  intro k v hk hv
  rw [headerLookup_attachToken_other _ _ _ hk]
  exact hv

/-- Witness for C2: scenario A with the resolving callback. -/
theorem C2_retry_witness :
    (errorHandler signOk retryOk errorA).result =
      HandlerResult.fromRetry (retryOk (attachToken configA "valid-tx-id")) ∧
    (errorHandler signOk retryOk errorA).retryCalls =
      [attachToken configA "valid-tx-id"] ∧
    headerLookup (attachToken configA "valid-tx-id") "x-pay402" =
      some "valid-tx-id" ∧
    headerLookup (attachToken configA "valid-tx-id") "Accept" =
      some "application/json" := by
  have h := C2_retry_carries_token signOk retryOk errorA responseA acceptA
    configA "valid-tx-id" rfl rfl (by rfl) (by decide) (by rfl) rfl
  exact ⟨h.1, h.2.1, h.2.2.1,
    h.2.2.2 "Accept" "application/json" (by decide) (by rfl)⟩

/-- Claim C3: for every 402 error in which no accept entry's description
contains the marker substring, or whose matched entry yields an empty
option list, the interceptor rejects with the original error value
unchanged and never invokes the payer callback. -/
theorem C3_unmatched_rejects_original {ρ σ ε : Type}
    (s : List PaymentOption → String → Except σ String)
    (r : RequestConfig → Except ε ρ)
    (error : AxiosError) (response : AxiosResponse)
    (hresp : error.response = some response)
    (hstatus : response.status = 402)
    (hcase : (∀ a ∈ acceptsOf response, descrMatches a = false) ∨
             ∃ e, findAccept response.data = some e ∧ extractPricing e = []) :
    (errorHandler s r error).result = HandlerResult.rejectError error ∧
    (errorHandler s r error).signCalls = [] := by
  rcases hcase with h | ⟨e, hfa, hempty⟩
  · have heq := errorHandler_unmatched s r error response hresp hstatus
      (findAccept_eq_none response h)
    exact ⟨by rw [heq], by rw [heq]⟩
  · have heq := errorHandler_matched_empty s r error response e
      hresp hstatus hfa hempty
    exact ⟨by rw [heq], by rw [heq]⟩

/-- Witness for C3: scenario B of `test/verify.ts` (no marker). -/
theorem C3_scenarioB_witness :
    (errorHandler signOk retryOk errorB).result =
      HandlerResult.rejectError errorB ∧
    (errorHandler signOk retryOk errorB).signCalls = [] :=
  C3_unmatched_rejects_original signOk retryOk errorB responseB rfl rfl
    (Or.inl (by decide))

/-- Claim C4: for every matched 402 with a non-empty option list, when the
payer callback rejects with `E` the interceptor rejects with `E` itself —
not with the original 402 error — and no retry is issued. -/
theorem C4_sign_failure_propagates {ρ σ ε : Type}
    (s : List PaymentOption → String → Except σ String)
    (r : RequestConfig → Except ε ρ)
    (error : AxiosError) (response : AxiosResponse) (e : Pay402Accept) (E : σ)
    (hresp : error.response = some response)
    (hstatus : response.status = 402)
    (hfa : findAccept response.data = some e)
    (hne : extractPricing e ≠ [])
    (hsign : s (extractPricing e) e.resource = Except.error E) :
    (errorHandler s r error).result = HandlerResult.rejectSign E ∧
    (errorHandler s r error).retryCalls = [] := by
  have heq := errorHandler_matched_signFail s r error response e E
    hresp hstatus hfa hne hsign
  exact ⟨by rw [heq], by rw [heq]⟩

/-- Witness for C4: scenario A with a rejecting callback. -/
theorem C4_sign_failure_witness :
    (errorHandler signFail retryOk errorA).result =
      HandlerResult.rejectSign "user declined" ∧
    (errorHandler signFail retryOk errorA).retryCalls = [] :=
  C4_sign_failure_propagates signFail retryOk errorA responseA acceptA
    "user declined" rfl rfl (by rfl) (by decide) (by rfl)

/-- Claim C5: per original 402 occurrence the handler invokes the payer
callback at most once and reissues the request at most once, and whenever
its result comes from a retry, that result is the retry oracle's outcome
verbatim — a second 402 (or any other failure) of the retried request is
not inspected, looped on, or re-signed by this handler invocation. -/
theorem C5_at_most_one_retry {ρ σ ε : Type}
    (s : List PaymentOption → String → Except σ String)
    (r : RequestConfig → Except ε ρ)
    (error : AxiosError) :
    (errorHandler s r error).retryCalls.length ≤ 1 ∧
    (errorHandler s r error).signCalls.length ≤ 1 ∧
    ∀ x, (errorHandler s r error).result = HandlerResult.fromRetry x →
      ∃ cfg, (errorHandler s r error).retryCalls = [cfg] ∧ x = r cfg := by
  cases hresp : error.response with
  | none =>
    have heq := errorHandler_noResponse s r error hresp
    rw [heq]
    refine ⟨by simp, by simp, ?_⟩
    intro x hx
    simp at hx
  | some response =>
    by_cases hstatus : response.status = 402
    · cases hfa : findAccept response.data with
      | none =>
        have heq := errorHandler_unmatched s r error response hresp hstatus hfa
        rw [heq]
        refine ⟨by simp, by simp, ?_⟩
        intro x hx
        simp at hx
      | some e =>
        by_cases hne : extractPricing e = []
        · have heq := errorHandler_matched_empty s r error response e
            hresp hstatus hfa hne
          rw [heq]
          refine ⟨by simp, by simp, ?_⟩
          intro x hx
          simp at hx
        · cases hsig : s (extractPricing e) e.resource with
          | error E =>
            have heq := errorHandler_matched_signFail s r error response e E
              hresp hstatus hfa hne hsig
            rw [heq]
            refine ⟨by simp, by simp, ?_⟩
            intro x hx
            simp at hx
          | ok T =>
            cases hcfg : error.config with
            | none =>
              have heq := errorHandler_matched_noConfig s r error response e T
                hresp hstatus hfa hne hsig hcfg
              rw [heq]
              refine ⟨by simp, by simp, ?_⟩
              intro x hx
              simp at hx
            | some config =>
              have heq := errorHandler_matched_ok s r error response e config T
                hresp hstatus hfa hne hsig hcfg
              rw [heq]
              refine ⟨by simp, by simp, ?_⟩
              intro x hx
              have hx2 : r (attachToken config T) = x := by simpa using hx
              exact ⟨attachToken config T, by simp, hx2.symm⟩
    · have heq := errorHandler_non402 s r error response hresp hstatus
      rw [heq]
      refine ⟨by simp, by simp, ?_⟩
      intro x hx
      simp at hx

/-- Witness for C5: scenario A issues exactly one retry and the result is
the retry oracle's outcome. -/
theorem C5_single_retry_witness :
    (errorHandler signOk retryOk errorA).retryCalls.length ≤ 1 ∧
    (errorHandler signOk retryOk errorA).signCalls.length ≤ 1 ∧
    ∃ cfg, (errorHandler signOk retryOk errorA).retryCalls = [cfg] ∧
      retryOk (attachToken configA "valid-tx-id") = retryOk cfg := by
  have h := C5_at_most_one_retry signOk retryOk errorA
  exact ⟨h.1, h.2.1,
    h.2.2 (retryOk (attachToken configA "valid-tx-id")) (by rfl)⟩

/-- Counterexample to claim C6 as stated: the character class `[\d.]` of the
scanner admits any mixture of digits and dots, so the description
`Send 1.2.3 PAY` parses the amount `1.2.3`, which has two decimal points —
refuting that every parsed amount is digits with at most one decimal
point. -/
theorem C6_counterexample_multidot :
    matchSendPay "Send 1.2.3 PAY" = some "1.2.3" ∧
    wellFormedAmount "1.2.3" = false ∧
    ¬ (∀ s a, matchSendPay s = some a → wellFormedAmount a = true) := by
  refine ⟨rfl, rfl, fun h => ?_⟩
  have h2 := h "Send 1.2.3 PAY" "1.2.3" rfl
  exact absurd h2 (by decide)

/-- Claim C6 as amended: the amount parsed from a matched `Send <amount>
PAY` pattern is a non-empty string composed of digits and dots (possibly
several dots, the token `PAY` matched case-sensitively); when no such
pattern occurs, extraction rule 1 emits no option rather than failing. -/
theorem C6_amended_digits_dots :
    (∀ s a, matchSendPay s = some a →
      a ≠ "" ∧ a.data.all isDigitDot = true) ∧
    (∀ e : Pay402Accept, matchSendPay e.description = none →
      rule1Options e = []) := by
  constructor
  · intro s a h
    exact matchSendPay_capture s a h
  · intro e h
    simp [rule1Options, h]

/-- Witness for the amended C6: the scenario-A amount, and scenario B's
description yielding no rule-1 option. -/
theorem C6_digits_dots_witness :
    ("0.066" ≠ "" ∧ "0.066".data.all isDigitDot = true) ∧
    rule1Options acceptB = [] := by
  constructor
  · exact C6_amended_digits_dots.1 "Send 0.066 PAY" "0.066" rfl
  · exact C6_amended_digits_dots.2 acceptB rfl

/-- Claim C7: every failure without a response, or whose status is not 402,
is rejected unchanged immediately, with no extraction, no payer-callback
invocation and no retry. -/
theorem C7_non402_passthrough {ρ σ ε : Type}
    (s : List PaymentOption → String → Except σ String)
    (r : RequestConfig → Except ε ρ)
    (error : AxiosError)
    (hcase : error.response = none ∨
             ∃ response, error.response = some response ∧
               response.status ≠ 402) :
    errorHandler s r error =
      { result := HandlerResult.rejectError error,
        signCalls := [],
        extractCalls := [],
        retryCalls := [] } := by
  rcases hcase with h | ⟨response, hresp, hstatus⟩
  · exact errorHandler_noResponse s r error h
  · exact errorHandler_non402 s r error response hresp hstatus

/-- Witness for C7: a 404 failure passes through untouched. -/
theorem C7_non402_witness :
    errorHandler signOk retryOk errorC =
      { result := HandlerResult.rejectError errorC,
        signCalls := [],
        extractCalls := [],
        retryCalls := [] } :=
  C7_non402_passthrough signOk retryOk errorC
    (Or.inr ⟨{ status := 404, data := none }, rfl, by decide⟩)

/-- Claim C8: on the successful-payment path the retried configuration is
the original one with only its header set changed — URL, method and body
are untouched, the header object is created when absent (`headers` is
`some` afterwards), the single field `x-pay402` is set, and every other
header reads exactly as before. -/
theorem C8_header_only_mutation {ρ σ ε : Type}
    (s : List PaymentOption → String → Except σ String)
    (r : RequestConfig → Except ε ρ)
    (error : AxiosError) (response : AxiosResponse) (e : Pay402Accept)
    (config : RequestConfig) (T : String)
    (hresp : error.response = some response)
    (hstatus : response.status = 402)
    (hfa : findAccept response.data = some e)
    (hne : extractPricing e ≠ [])
    (hsign : s (extractPricing e) e.resource = Except.ok T)
    (hconfig : error.config = some config) :
    (errorHandler s r error).retryCalls = [attachToken config T] ∧
    (attachToken config T).url = config.url ∧
    (attachToken config T).method = config.method ∧
    (attachToken config T).body = config.body ∧
    (attachToken config T).headers =
      some (setHeader (config.headers.getD []) "x-pay402" T) ∧
    headerLookup (attachToken config T) "x-pay402" = some T ∧
    ∀ k, k ≠ "x-pay402" →
      headerLookup (attachToken config T) k = headerLookup config k := by
  have h := errorHandler_matched_ok s r error response e config T
    hresp hstatus hfa hne hsign hconfig
  refine ⟨by rw [h], rfl, rfl, rfl, rfl,
    headerLookup_attachToken_self _ _, ?_⟩
  intro k hk
  exact headerLookup_attachToken_other _ _ _ hk

/-- Witness for C8: scenario A, checking the `Accept` header survives. -/
theorem C8_header_witness :
    (errorHandler signOk retryOk errorA).retryCalls =
      [attachToken configA "valid-tx-id"] ∧
    (attachToken configA "valid-tx-id").url = configA.url ∧
    (attachToken configA "valid-tx-id").method = configA.method ∧
    (attachToken configA "valid-tx-id").body = configA.body ∧
    (attachToken configA "valid-tx-id").headers =
      some (setHeader (configA.headers.getD []) "x-pay402" "valid-tx-id") ∧
    headerLookup (attachToken configA "valid-tx-id") "x-pay402" =
      some "valid-tx-id" ∧
    headerLookup (attachToken configA "valid-tx-id") "Accept" =
      headerLookup configA "Accept" := by
  have h := C8_header_only_mutation signOk retryOk errorA responseA acceptA
    configA "valid-tx-id" rfl rfl (by rfl) (by decide) (by rfl) rfl
  exact ⟨h.1, h.2.1, h.2.2.1, h.2.2.2.1, h.2.2.2.2.1, h.2.2.2.2.2.1,
    h.2.2.2.2.2.2 "Accept" (by decide)⟩

/-- Claim C9: the setup operation registers the fallback payment-protocol
handler first and its own response interceptor afterwards, so in the
most-recently-registered-runs-first failure chain the custom handler runs
before the fallback one; and the returned instance is the same client,
mutated in place (its identity is preserved, only the interceptor list
grows). -/
theorem C9_setup_registration_order (a : AxiosInstance) :
    (withPay402Interceptor a).clientId = a.clientId ∧
    (withPay402Interceptor a).responseInterceptors =
      a.responseInterceptors ++
        [InterceptorTag.x402Fallback, InterceptorTag.pay402Custom] ∧
    executionOrder (withPay402Interceptor a) =
      InterceptorTag.pay402Custom :: InterceptorTag.x402Fallback ::
        executionOrder a := by
  refine ⟨rfl, ?_, ?_⟩
  · simp [withPay402Interceptor, withPaymentInterceptor, responseUse]
  · simp [executionOrder, withPay402Interceptor, withPaymentInterceptor,
      responseUse]

/-- Claim C10: for a matched 402 with a non-empty option list whose error
object carries no request configuration, the payer callback is still
invoked, its token is discarded (no retry is issued), and the interceptor
rejects with the original 402 error. -/
theorem C10_missing_config_rejects_original {ρ σ ε : Type}
    (s : List PaymentOption → String → Except σ String)
    (r : RequestConfig → Except ε ρ)
    (error : AxiosError) (response : AxiosResponse) (e : Pay402Accept)
    (T : String)
    (hresp : error.response = some response)
    (hstatus : response.status = 402)
    (hfa : findAccept response.data = some e)
    (hne : extractPricing e ≠ [])
    (hsign : s (extractPricing e) e.resource = Except.ok T)
    (hconfig : error.config = none) :
    (errorHandler s r error).signCalls = [(extractPricing e, e.resource)] ∧
    (errorHandler s r error).result = HandlerResult.rejectError error ∧
    (errorHandler s r error).retryCalls = [] := by
  have heq := errorHandler_matched_noConfig s r error response e T
    hresp hstatus hfa hne hsign hconfig
  exact ⟨by rw [heq], by rw [heq], by rw [heq]⟩

/-- Witness for C10: scenario A's challenge on an error object without a
configuration. -/
theorem C10_missing_config_witness :
    (errorHandler signOk retryOk errorD).signCalls =
      [(extractPricing acceptA, acceptA.resource)] ∧
    (errorHandler signOk retryOk errorD).result =
      HandlerResult.rejectError errorD ∧
    (errorHandler signOk retryOk errorD).retryCalls = [] :=
  C10_missing_config_rejects_original signOk retryOk errorD responseA
    acceptA "valid-tx-id" rfl rfl (by rfl) (by decide) (by rfl) rfl

end Pay402
